import Mathlib

/-!
Verification of the schedule generation and conflict-validation engine of the
coursework timetable backend (apps/studies/schedule_generator.py and
apps/studies/validators.py), as a shallow embedding in Lean 4.

Django model instances become plain structures; querysets over the persisted
`SubjectSchedule` table become list operations over an explicit database value;
foreign keys compare by primary key, matching the ORM's `filter` semantics.
Times of day are minutes since midnight.
-/

namespace Coursework

/-- Week parity choices (`EvenOddBoth` in apps/studies/choices.py):
EVEN = "Четные", ODD = "Нечетные", BOTH = "Все". -/
inductive EvenOddBoth where
  | EVEN
  | ODD
  | BOTH
deriving DecidableEq, Repr

/-- The display value of the `TextChoices` member, as rendered by `str()`
inside the validators' f-string messages. -/
def EvenOddBoth.value : EvenOddBoth → String
  | .EVEN => "Четные"
  | .ODD => "Нечетные"
  | .BOTH => "Все"

/-- Room (`Audiences` in apps/buildings/models.py); only the fields the
scheduling core reads. -/
structure Audience where
  id : Nat
  title : String
deriving DecidableEq, Repr

/-- Subject (`Subjects` in apps/studies/models.py); only the fields the
scheduling core reads: identity, title, fixed room. -/
structure Subject where
  id : Nat
  title : String
  audience : Audience
deriving DecidableEq, Repr

/-- Teacher (a `User` with the TEACHER role); fields used by the teacher
conflict message. -/
structure Teacher where
  id : Nat
  username : String
  first_name : String
  last_name : String
deriving DecidableEq, Repr

/-- Day of week (`Day` in apps/studies/models.py). -/
structure Day where
  id : Nat
  title : String
deriving DecidableEq, Repr

/-- Time slot (`TimeSlot` in apps/studies/models.py); start and end in
minutes since midnight. -/
structure TimeSlot where
  id : Nat
  number : Nat
  start_time : Nat
  end_time : Nat
deriving DecidableEq, Repr

/-- Study group (`StudyGroups` in apps/groups/models.py); fields the core
reads. -/
structure StudyGroup where
  id : Nat
  title : String
  is_active : Bool
deriving DecidableEq, Repr

/-- Modelled from the spec: the `SubjectSchedule` model class itself is not in
the repository snapshot (only its callers, serializers, admin and tests are);
per §3 of the spec a ScheduleAssignment carries identity, references to
Subject, Day, TimeSlot, WeekParity, a set of Teachers and a set of Groups.
`pk = none` is an instance that was never saved (no persisted identity). -/
structure SubjectSchedule where
  pk : Option Nat
  subject : Subject
  week_day : Day
  time_slot : TimeSlot
  week_type : EvenOddBoth
  teachers : List Teacher
  groups : List StudyGroup
deriving DecidableEq, Repr

/-- Zero-padded two-digit print of a number, for `%H:%M` time formatting. -/
def pad2 (n : Nat) : String :=
  if n < 10 then "0" ++ toString n else toString n

/-- `time.strftime(\x27%H:%M\x27)` over minutes since midnight. -/
def fmtTime (m : Nat) : String :=
  pad2 (m / 60) ++ ":" ++ pad2 (m % 60)

/-- The week-parity filter block that appears verbatim in all three validators
(validators.py lines 38-49, 85-96, 132-143): an instance with parity BOTH is
checked against candidates of any parity; otherwise against candidates of the
same parity or BOTH.  `weekTypeFilter a b = true` means a candidate of parity
`b` stays in the conflicting set for an instance of parity `a`. -/
def weekTypeFilter (a b : EvenOddBoth) : Bool :=
  match a with
  | .BOTH => b = EvenOddBoth.BOTH || b = EvenOddBoth.EVEN || b = EvenOddBoth.ODD
  | _ => b = a || b = EvenOddBoth.BOTH

/-- Whether an `Except` result is the ok outcome (no `ValidationError`
raised). -/
def exceptOk : Except String Unit → Bool
  | .ok _ => true
  | .error _ => false

/-- The queryset filter of `validate_group_schedule_conflict`
(validators.py lines 32-49): other persisted records referencing group `g`
with the same day and time slot, excluding the instance by pk, restricted by
the week-parity filter. -/
def groupConflictPred (inst : SubjectSchedule) (g : StudyGroup)
    (s : SubjectSchedule) : Bool :=
  s.groups.any (fun x => x.id = g.id) &&
  s.week_day.id = inst.week_day.id &&
  s.time_slot.id = inst.time_slot.id &&
  !(s.pk = inst.pk) &&
  weekTypeFilter inst.week_type s.week_type

/-- The `for group in groups` loop of `validate_group_schedule_conflict`:
raises on the first group whose conflicting queryset is non-empty. -/
def groupConflictLoop (db : List SubjectSchedule) (inst : SubjectSchedule) :
    List StudyGroup → Except String Unit
  | [] => .ok ()
  | g :: rest =>
    match db.filter (groupConflictPred inst g) with
    | [] => groupConflictLoop db inst rest
    | c :: _ =>
      let gt := g.title
      let ct := c.subject.title
      let dt := inst.week_day.title
      let n := inst.time_slot.number
      let wt := inst.week_type.value
      .error s!"Конфликт расписания: группа \"{gt}\" уже имеет предмет \"{ct}\" в {dt} на {n}-й паре ({wt})"

/-- `validate_group_schedule_conflict` (validators.py lines 11-57) over a
persisted-assignment database `db`. -/
def validate_group_schedule_conflict (db : List SubjectSchedule)
    (inst : SubjectSchedule) : Except String Unit :=
  match inst.pk with
  | none => .ok ()
  | some _ => groupConflictLoop db inst inst.groups

/-- The queryset filter of `validate_audience_schedule_conflict`
(validators.py lines 79-96): other persisted records whose subject uses the
same room, same day and slot, excluding the instance by pk, restricted by the
week-parity filter.  Note there is no exclusion of records backed by the same
subject: only the pk is excluded. -/
def audienceConflictPred (inst : SubjectSchedule) (s : SubjectSchedule) : Bool :=
  s.subject.audience.id = inst.subject.audience.id &&
  s.week_day.id = inst.week_day.id &&
  s.time_slot.id = inst.time_slot.id &&
  !(s.pk = inst.pk) &&
  weekTypeFilter inst.week_type s.week_type

/-- `validate_audience_schedule_conflict` (validators.py lines 60-104). -/
def validate_audience_schedule_conflict (db : List SubjectSchedule)
    (inst : SubjectSchedule) : Except String Unit :=
  match inst.pk with
  | none => .ok ()
  | some _ =>
    match db.filter (audienceConflictPred inst) with
    | [] => .ok ()
    | c :: _ =>
      let at2 := inst.subject.audience.title
      let ct := c.subject.title
      let dt := inst.week_day.title
      let n := inst.time_slot.number
      let wt := inst.week_type.value
      .error s!"Конфликт расписания: аудитория \"{at2}\" уже занята предметом \"{ct}\" в {dt} на {n}-й паре ({wt})"

/-- The queryset filter of `validate_teacher_schedule_conflict`
(validators.py lines 126-143). -/
def teacherConflictPred (inst : SubjectSchedule) (t : Teacher)
    (s : SubjectSchedule) : Bool :=
  s.teachers.any (fun x => x.id = t.id) &&
  s.week_day.id = inst.week_day.id &&
  s.time_slot.id = inst.time_slot.id &&
  !(s.pk = inst.pk) &&
  weekTypeFilter inst.week_type s.week_type

/-- The `for teacher in teachers` loop of `validate_teacher_schedule_conflict`. -/
def teacherConflictLoop (db : List SubjectSchedule) (inst : SubjectSchedule) :
    List Teacher → Except String Unit
  | [] => .ok ()
  | t :: rest =>
    match db.filter (teacherConflictPred inst t) with
    | [] => teacherConflictLoop db inst rest
    | c :: _ =>
      let tn := if t.last_name ≠ "" then t.last_name ++ " " ++ t.first_name else t.username
      let ct := c.subject.title
      let dt := inst.week_day.title
      let n := inst.time_slot.number
      let wt := inst.week_type.value
      .error s!"Конфликт расписания: преподаватель \"{tn}\" уже ведет предмет \"{ct}\" в {dt} на {n}-й паре ({wt})"

/-- `validate_teacher_schedule_conflict` (validators.py lines 107-152). -/
def validate_teacher_schedule_conflict (db : List SubjectSchedule)
    (inst : SubjectSchedule) : Except String Unit :=
  match inst.pk with
  | none => .ok ()
  | some _ => teacherConflictLoop db inst inst.teachers

/-! ## The slot allocation matrix (ScheduleGenerator.schedule_matrix)

Python dictionaries with unique keys are embedded as association lists in
insertion order: `alistGet` reads the first binding of a key, `alistSet`
overwrites it in place or appends a fresh binding at the end, exactly the
mutation behaviour of `d[k] = v`. -/

/-- Lookup in a Python-dict embedding. -/
def alistGet {α β : Type} [DecidableEq α] : List (α × β) → α → Option β
  | [], _ => none
  | p :: rest, k => if p.1 = k then some p.2 else alistGet rest k

/-- `d[k] = v` on a Python-dict embedding: overwrite the existing binding in
place, else append. -/
def alistSet {α β : Type} [DecidableEq α] : List (α × β) → α → β → List (α × β)
  | [], k, v => [(k, v)]
  | p :: rest, k, v => if p.1 = k then (k, v) :: rest else p :: alistSet rest k v

/-- The value stored under a group id in `schedule_matrix[slot_key]`
(schedule_generator.py lines 309-314). -/
structure MatrixEntry where
  subject : Subject
  day : Day
  time_slot : TimeSlot
  week_type : EvenOddBoth
deriving DecidableEq, Repr

/-- One value of `schedule_matrix`: the Python dict mixes integer group-id
keys with the sentinel string key `audiences`; the int keys are
`group_entries` and the sentinel's nested dict (room id to the subject that
claimed the room) is `audiences` — the two key sorts can never collide since
an int never equals a string. -/
structure SlotData where
  group_entries : List (Nat × MatrixEntry)
  audiences : List (Nat × Subject)
deriving DecidableEq, Repr

/-- A slot key `(day.id, time_slot.id, week_type)`. -/
abbrev SlotKey := Nat × Nat × EvenOddBoth

/-- `schedule_matrix`: defaultdict from slot key to per-slot occupancy. -/
abbrev ScheduleMatrix := List (SlotKey × SlotData)

/-- Reading `schedule_matrix[slot_key]` of the defaultdict: an absent key
reads as the empty per-slot dict.  (The defaultdict also inserts the fresh
empty value on read; that empty binding has no observable effect on any
downstream computation, so the embedding keeps reads pure.) -/
def mget (m : ScheduleMatrix) (k : SlotKey) : SlotData :=
  (alistGet m k).getD ⟨[], []⟩

/-- `ScheduleGenerator._can_assign` (schedule_generator.py lines 254-292):
returns the boolean verdict together with the conflict-log lines appended
during the call. -/
def canAssign (m : ScheduleMatrix) (subject : Subject) (group : StudyGroup)
    (day : Day) (time_slot : TimeSlot) (week_type : EvenOddBoth) :
    Bool × List String :=
  let slot_key : SlotKey := (day.id, time_slot.id, week_type)
  let sd := mget m slot_key
  if (alistGet sd.group_entries group.id).isSome then
    let gt := group.title
    let dt := day.title
    let n := time_slot.number
    (false, [s!"Группа {gt} уже занята в {dt} {n}-я пара"])
  else
    match alistGet sd.audiences subject.audience.id with
    | some existing_subject =>
      if existing_subject.id ≠ subject.id then
        let at2 := subject.audience.title
        let et := existing_subject.title
        let dt := day.title
        let n := time_slot.number
        (false, [s!"Аудитория {at2} занята предметом {et} в {dt} {n}-я пара"])
      else (true, [])
    | none => (true, [])

/-- `ScheduleGenerator._assign` (schedule_generator.py lines 294-322):
record the group claim and the room claim under the slot key. -/
def assign (m : ScheduleMatrix) (subject : Subject) (group : StudyGroup)
    (day : Day) (time_slot : TimeSlot) (week_type : EvenOddBoth) :
    ScheduleMatrix :=
  let slot_key : SlotKey := (day.id, time_slot.id, week_type)
  let sd := mget m slot_key
  let sd1 : SlotData :=
    { sd with group_entries :=
        alistSet sd.group_entries group.id ⟨subject, day, time_slot, week_type⟩ }
  let sd2 : SlotData :=
    { sd1 with audiences := alistSet sd1.audiences subject.audience.id subject }
  alistSet m slot_key sd2

/-- One obligation of `all_assignments` (schedule_generator.py lines 158-168);
the dict's `assigned` flag is written by `_try_assign_all` but never read for
control, so the embedding omits it. -/
abbrev Obligation := Subject × StudyGroup

/-- The inner `for day, time_slot in day_slots` scan of `_try_assign_all`
(lines 233-238): try each candidate slot of one day in order, committing the
first that passes `_can_assign`; every failed test appends its conflict line
to the log. -/
def scanSlots (s : Subject) (g : StudyGroup) :
    ScheduleMatrix → List String → List (Day × TimeSlot) →
    Option ScheduleMatrix × List String
  | _, log, [] => (none, log)
  | m, log, (day, time_slot) :: rest =>
    let r := canAssign m s g day time_slot EvenOddBoth.BOTH
    if r.1 then (some (assign m s g day time_slot EvenOddBoth.BOTH), log ++ r.2)
    else scanSlots s g m (log ++ r.2) rest

/-- The `while attempts < len(days) and not assigned` loop of
`_try_assign_all` (lines 228-243): try the day pointed to by the cursor, then
advance the cursor, for at most one pass over all distinct days; on success
return the updated matrix and the cursor position at which the placement
happened.  The recursion fuel is `len(days) - attempts`. -/
def tryDays (s : Subject) (g : StudyGroup) (days : List Day)
    (slotsByDay : Nat → List (Day × TimeSlot)) :
    ScheduleMatrix → List String → Nat → Nat →
    Option (ScheduleMatrix × Nat) × List String
  | _, log, _, 0 => (none, log)
  | m, log, dayIndex, fuel + 1 =>
    match days.get? (dayIndex % days.length) with
    | none => (none, log)
    | some current_day =>
      match scanSlots s g m log (slotsByDay current_day.id) with
      | (some m2, log2) => (some (m2, dayIndex), log2)
      | (none, log2) => tryDays s g days slotsByDay m log2 (dayIndex + 1) fuel

/-- The `for assignment in assignments` loop of `_try_assign_all`
(lines 219-250): place each obligation via the rotating day cursor, advancing
the cursor by one after each successful placement; fail the whole attempt as
soon as one obligation cannot be placed anywhere. -/
def assignLoop (days : List Day) (slotsByDay : Nat → List (Day × TimeSlot)) :
    List Obligation → ScheduleMatrix → List String → Nat →
    Bool × ScheduleMatrix × List String
  | [], m, log, _ => (true, m, log)
  | ob :: rest, m, log, dayIndex =>
    match tryDays ob.1 ob.2 days slotsByDay m log dayIndex days.length with
    | (some (m2, di), log2) => assignLoop days slotsByDay rest m2 log2 (di + 1)
    | (none, log2) => (false, m, log2)

/-- The distinct days of the candidate pool in first-occurrence order
(`_try_assign_all` lines 206-211). -/
def distinctDays (slots : List (Day × TimeSlot)) : List Day :=
  slots.foldl
    (fun acc p => if acc.any (fun d => d.id = p.1.id) then acc else acc ++ [p.1])
    []

/-- `ScheduleGenerator._try_assign_all` (schedule_generator.py lines 186-252):
reset the matrix, group the candidate pairs by day (preserving pool order),
and run the placement loop.  Returns success, the final matrix and the
conflict log. -/
def tryAssignAll (assignments : List Obligation)
    (slots : List (Day × TimeSlot)) (log : List String) :
    Bool × ScheduleMatrix × List String :=
  let slotsByDay : Nat → List (Day × TimeSlot) :=
    fun did => slots.filter (fun p => p.1.id = did)
  let days := distinctDays slots
  assignLoop days slotsByDay assignments [] log 0

/-! ## Time-window presets and `generate_schedule` -/

/-- One entry of the `TIME_RANGES` table (schedule_generator.py lines 21-52). -/
structure TimeRangeConfig where
  name : String
  start_time : Nat
  end_time : Nat
  description : String
deriving DecidableEq, Repr

/-- `TIME_RANGES` (schedule_generator.py lines 21-52), times in minutes. -/
def TIME_RANGES : List (String × TimeRangeConfig) :=
  [("morning", ⟨"Утренние пары", 480, 870, "Занятия с утра до обеда (08:00-14:30)"⟩),
   ("mixed", ⟨"Смешанные пары", 690, 1020, "Занятия со второй половины дня (11:30-17:00)"⟩),
   ("afternoon", ⟨"Послеобеденные пары", 780, 1100, "Занятия во второй половине дня (13:00-18:20)"⟩),
   ("evening", ⟨"Вечерние пары", 960, 1260, "Вечерние занятия (16:00-21:00)"⟩),
   ("full", ⟨"Весь день", 480, 1260, "Все доступные временные слоты"⟩)]

/-- The test `if time_range and time_range in TIME_RANGES` with the
subsequent table read (lines 342-344).  The empty string is falsy in Python,
but it is also not a key of the table, so the embedding needs no separate
emptiness test. -/
def lookupTimeRange : Option String → Option TimeRangeConfig
  | none => none
  | some nm => alistGet TIME_RANGES nm

/-- `ScheduleGenerator._get_time_range` (schedule_generator.py lines
324-347): explicit custom bounds take priority only when both are given;
otherwise a known preset name; otherwise no bounds. -/
def getTimeRange (time_range : Option String)
    (custom_start custom_end : Option Nat) : Option Nat × Option Nat :=
  match custom_start, custom_end with
  | some s, some e => (some s, some e)
  | _, _ =>
    match lookupTimeRange time_range with
    | some rc => (some rc.start_time, some rc.end_time)
    | none => (none, none)

/-- The slot filter of `generate_schedule` (lines 134-139): applied only when
both bounds are present, keeping the slots whose start time falls inside the
window; with any bound missing the pool is untouched. -/
def filterSlotsByTime (slots : List TimeSlot) :
    Option Nat × Option Nat → List TimeSlot
  | (some s, some e) => slots.filter (fun t => s ≤ t.start_time && t.start_time ≤ e)
  | _ => slots

/-- Insert `x` after every already-placed element `y` with `le y x`:
the insertion step of a stable sort. -/
def insertOrdered {α : Type} (le : α → α → Bool) (x : α) : List α → List α
  | [] => [x]
  | y :: ys => if le y x then y :: insertOrdered le x ys else x :: y :: ys

/-- Stable ascending sort, embedding Python's stable `list.sort(key=...)`
(all stable sorts agree on a total preorder, so insertion sort is a faithful
embedding of Timsort). -/
def stableSort {α : Type} (le : α → α → Bool) (l : List α) : List α :=
  l.foldl (fun acc x => insertOrdered le x acc) []

/-- Sort key `(s[0].id, s[1].number)` of line 153 (morning preference). -/
def slotLeAsc (a b : Day × TimeSlot) : Bool :=
  a.1.id < b.1.id || (a.1.id = b.1.id && a.2.number ≤ b.2.number)

/-- Sort key `(s[0].id, -s[1].number)` of line 155. -/
def slotLeDesc (a b : Day × TimeSlot) : Bool :=
  a.1.id < b.1.id || (a.1.id = b.1.id && b.2.number ≤ a.2.number)

/-- Python `l[-n:]`: the last `n` elements. -/
def lastN {α : Type} (n : Nat) (l : List α) : List α :=
  l.drop (l.length - n)

/-- `Day.objects.get(id=i)`: raises `DoesNotExist` when no day has the id
(possible at lines 122-123 when the range bound itself is not a stored day). -/
def dayGet (days : List Day) (i : Nat) : Except String Day :=
  match days.find? (fun d => d.id = i) with
  | some d => .ok d
  | none => .error "Day matching query does not exist."

/-- A row of the `Subjects` table together with the ids of its `groups`
many-to-many set (Subjects.groups in apps/studies/models.py). -/
structure SubjectRow where
  subject : Subject
  groups : List Nat
deriving DecidableEq, Repr

/-- The persisted store the scheduling core reads and writes.  `pk_seq` is
the autoincrement cursor handing out primary keys for new
`SubjectSchedule` rows. -/
structure DB where
  schedules : List SubjectSchedule
  subjects : List SubjectRow
  groups : List StudyGroup
  days : List Day
  time_slots : List TimeSlot
  pk_seq : Nat
deriving DecidableEq, Repr

/-- The `for attempt in range(max_attempts)` loop of `generate_schedule`
(lines 173-184): run an attempt; on success report the 1-based attempt
count; on failure shuffle the obligations (the oracle `shuffles i` stands
for `random.shuffle` after failed attempt `i`) and retry.  The matrix
argument carries `self.schedule_matrix` between iterations so the partial
matrix of the last failed attempt is what the exhausted loop leaves behind. -/
def attemptLoop (shuffles : Nat → List Obligation → List Obligation)
    (slots : List (Day × TimeSlot)) :
    Nat → Nat → List Obligation → List String → ScheduleMatrix →
    Option Nat × ScheduleMatrix × List String
  | 0, _, _, log, m => (none, m, log)
  | fuel + 1, i, assignments, log, _ =>
    match tryAssignAll assignments slots log with
    | (true, m2, log2) => (some (i + 1), m2, log2)
    | (false, m2, log2) =>
      attemptLoop shuffles slots fuel (i + 1) (shuffles i assignments) log2 m2

/-- `ScheduleGenerator.generate_schedule` (schedule_generator.py lines
75-184) on a freshly constructed generator (empty matrix and conflict log).
Returns `(success, messages, schedule_matrix, conflicts_log)`; a thrown
Django exception (only `Day.objects.get` inside the day-range messages can
throw here) becomes the `Except.error` case. -/
def generate_schedule (db : DB)
    (shuffles : Nat → List Obligation → List Obligation)
    (groups : List StudyGroup) (subjects_per_group : Nat → List Subject)
    (prefer_morning : Bool) (max_attempts : Nat) (time_range : Option String)
    (custom_start_time custom_end_time : Option Nat)
    (start_day_id end_day_id : Option Nat) :
    Except String (Bool × List String × ScheduleMatrix × List String) := do
  let r := getTimeRange time_range custom_start_time custom_end_time
  let msgs1 : List String :=
    match r with
    | (some s, some e) =>
      let fs := fmtTime s
      let fe := fmtTime e
      [s!"Временной промежуток: {fs} - {fe}"]
    | _ => []
  let all_time_slots0 := stableSort (fun a b => a.number ≤ b.number) db.time_slots
  let all_days0 := stableSort (fun a b => a.id ≤ b.id) db.days
  let (all_days, msgs2) ←
    match start_day_id, end_day_id with
    | some sd, some ed => do
      let ds := all_days0.filter (fun d => sd ≤ d.id && d.id ≤ ed)
      if ds.isEmpty then pure (ds, ([] : List String))
      else do
        let sdD ← dayGet db.days sd
        let edD ← dayGet db.days ed
        let st := sdD.title
        let et := edD.title
        pure (ds, [s!"Дни недели: с {st} по {et}"])
    | some sd, none => do
      let ds := all_days0.filter (fun d => d.id = sd)
      if ds.isEmpty then pure (ds, ([] : List String))
      else do
        let dD ← dayGet db.days sd
        let t := dD.title
        pure (ds, [s!"День недели: {t}"])
    | none, some ed => do
      let ds := all_days0.filter (fun d => d.id = ed)
      if ds.isEmpty then pure (ds, ([] : List String))
      else do
        let dD ← dayGet db.days ed
        let t := dD.title
        pure (ds, [s!"День недели: {t}"])
    | none, none => pure (all_days0, ([] : List String))
  let all_time_slots := filterSlotsByTime all_time_slots0 r
  let msgs3 : List String :=
    match r with
    | (some _, some _) =>
      let k := all_time_slots.length
      [s!"Доступных временных слотов: {k}"]
    | _ => []
  if all_time_slots.isEmpty || all_days.isEmpty then
    return (false,
      ["Ошибка: не созданы временные слоты или дни недели, либо выбранный диапазон пуст"],
      [], [])
  let all_slots0 := all_days.foldr
    (fun d acc => all_time_slots.map (fun t => (d, t)) ++ acc) []
  let k1 := all_slots0.length
  let msgs4 : List String := [s!"Всего доступных слотов (день+время): {k1}"]
  let all_slots :=
    if prefer_morning then stableSort slotLeAsc all_slots0
    else stableSort slotLeDesc all_slots0
  let all_assignments := groups.foldr
    (fun g acc => (subjects_per_group g.id).map (fun s => (s, g)) ++ acc) []
  let k2 := all_assignments.length
  let msgs5 : List String := [s!"Всего предметов для распределения: {k2}"]
  let msgs := msgs1 ++ msgs2 ++ msgs3 ++ msgs4 ++ msgs5
  match attemptLoop shuffles all_slots max_attempts 0 all_assignments [] [] with
  | (some attempts, m, log2) =>
    return (true, msgs ++ [s!"Расписание успешно сгенерировано за {attempts} попыток"], m, log2)
  | (none, m, log2) =>
    return (false,
      msgs ++ [s!"Не удалось сгенерировать расписание за {max_attempts} попыток"]
        ++ lastN 10 log2, m, log2)

/-! ## `generate_schedule_for_group` and `validate_generated_schedule` -/

/-- The statistics record of `generate_schedule_for_group`
(schedule_generator.py lines 379-383). -/
structure GenStats where
  total_subjects : Nat
  assigned_subjects : Nat
  conflicts : Nat
deriving DecidableEq, Repr

/-- The body of the clearing loop (schedule_generator.py lines 407-423) for
one persisted record: a record of the subject whose groups contain the target
group loses that group membership and is deleted outright when the group was
its only one (the source reads `groups_count` before the `remove`, removes,
then deletes when the count was 1 — the net effect embedded here); every
other record is untouched. -/
def clearOne (g : StudyGroup) (s : Subject) (r : SubjectSchedule) :
    Option SubjectSchedule :=
  if r.subject.id = s.id && r.groups.any (fun x => x.id = g.id) then
    if r.groups.length = 1 then none
    else some { r with groups := r.groups.filter (fun x => !(x.id = g.id)) }
  else some r

/-- The `for schedule in schedules` pass for one subject, returning the
surviving records and the number of deleted ones. -/
def clearForSubject (schedules : List SubjectSchedule) (s : Subject)
    (g : StudyGroup) : List SubjectSchedule × Nat :=
  schedules.foldr
    (fun r acc =>
      match clearOne g s r with
      | none => (acc.1, acc.2 + 1)
      | some r2 => (r2 :: acc.1, acc.2))
    ([], 0)

/-- The `for subject in subjects` clearing loop (lines 406-423), threading
the store and accumulating `deleted_count`. -/
def clearExisting (schedules : List SubjectSchedule) (subjects : List Subject)
    (g : StudyGroup) : List SubjectSchedule × Nat :=
  subjects.foldl
    (fun st s =>
      let r := clearForSubject st.1 s g
      (r.1, st.2 + r.2))
    (schedules, 0)

/-- `schedule.groups.add(group)`: a no-op when the group is already attached. -/
def addGroupM2M (gs : List StudyGroup) (g : StudyGroup) : List StudyGroup :=
  if gs.any (fun x => x.id = g.id) then gs else gs ++ [g]

/-- `SubjectSchedule.objects.get_or_create(subject=..., week_day=...,
time_slot=..., week_type=...)` followed by `schedule.groups.add(group)`
(lines 466-474); a fresh record takes the next primary key from the
autoincrement cursor. -/
def getOrCreateAndAddGroup (schedules : List SubjectSchedule) (pk_seq : Nat)
    (e : MatrixEntry) (g : StudyGroup) : List SubjectSchedule × Nat :=
  match schedules.find? (fun r =>
      r.subject.id = e.subject.id && r.week_day.id = e.day.id &&
      r.time_slot.id = e.time_slot.id && r.week_type = e.week_type) with
  | some r0 =>
    (schedules.map (fun r =>
        if r.pk = r0.pk then { r with groups := addGroupM2M r.groups g } else r),
     pk_seq)
  | none =>
    (schedules ++ [⟨some pk_seq, e.subject, e.day, e.time_slot, e.week_type, [], [g]⟩],
     pk_seq + 1)

/-- The inner `for key, data in slot_data.items()` loop of the success branch
(lines 452-479): the sentinel `audiences` key is skipped (its value is not an
int-keyed dict entry), every integer key carries a placement dict, and each
placement bumps `assigned_subjects`. -/
def applyEntries (g : StudyGroup) :
    List (Nat × MatrixEntry) → List SubjectSchedule → Nat → Nat →
    List SubjectSchedule × Nat × Nat
  | [], schedules, pk_seq, count => (schedules, pk_seq, count)
  | (_, e) :: rest, schedules, pk_seq, count =>
    let r := getOrCreateAndAddGroup schedules pk_seq e g
    applyEntries g rest r.1 r.2 (count + 1)

/-- The outer `for slot_key, slot_data in generator.schedule_matrix.items()`
loop of the success branch (lines 448-479). -/
def applyMatrix (g : StudyGroup) :
    ScheduleMatrix → List SubjectSchedule → Nat → Nat →
    List SubjectSchedule × Nat × Nat
  | [], schedules, pk_seq, count => (schedules, pk_seq, count)
  | (_, sd) :: rest, schedules, pk_seq, count =>
    let r := applyEntries g sd.group_entries schedules pk_seq count
    applyMatrix g rest r.1 r.2.1 r.2.2

/-- `generate_schedule_for_group` (schedule_generator.py lines 350-490):
group lookup (active groups only), subject lookup, optional clearing,
generator run, and — only on generator success — the bulk write of the
matrix.  Returns the Python result triple together with the store after the
call. -/
def generate_schedule_for_group (db : DB)
    (shuffles : Nat → List Obligation → List Obligation)
    (group_id : Nat) (subject_ids : List Nat)
    (clear_existing prefer_morning : Bool) (time_range : Option String)
    (custom_start_time custom_end_time : Option Nat)
    (start_day_id end_day_id : Option Nat) :
    (Bool × List String × GenStats) × DB :=
  let stats0 : GenStats := ⟨0, 0, 0⟩
  match db.groups.filter (fun g => g.id = group_id && g.is_active) with
  | [] => ((false, ["Группа не найдена"], stats0), db)
  | group :: _ =>
    let gt := group.title
    let msgs1 : List String := [s!"Генерация расписания для группы {gt}"]
    let subjects := (db.subjects.filter
        (fun row => subject_ids.contains row.subject.id)).map (fun row => row.subject)
    if subjects.length ≠ subject_ids.length then
      ((false, ["Один или несколько предметов не найдены"], stats0), db)
    else
      let total := subjects.length
      let msgs2 := msgs1 ++ [s!"Всего предметов: {total}"]
      let cleared :=
        if clear_existing then
          let r := clearExisting db.schedules subjects group
          let k := r.2
          ({ db with schedules := r.1 },
           msgs2 ++ [s!"Существующее расписание очищено (удалено записей: {k})"])
        else (db, msgs2)
      let db1 := cleared.1
      let msgsC := cleared.2
      let spg : Nat → List Subject := fun gid => if gid = group.id then subjects else []
      match generate_schedule db1 shuffles [group] spg prefer_morning 100
          time_range custom_start_time custom_end_time start_day_id end_day_id with
      | .error e =>
        ((false, msgsC ++ [s!"Ошибка генерации: {e}"],
          { stats0 with total_subjects := total }), db1)
      | .ok (success, gen_msgs, matrix, clog) =>
        let msgs3 := msgsC ++ gen_msgs
        if success then
          let r := applyMatrix group matrix db1.schedules db1.pk_seq 0
          let db2 := { db1 with schedules := r.1, pk_seq := r.2.1 }
          let assigned := r.2.2
          ((true,
            msgs3 ++ ["Расписание успешно применено к БД",
              s!"Назначено слотов: {assigned}"],
            ⟨total, assigned, 0⟩), db2)
        else
          ((false, msgs3, ⟨total, 0, clog.length⟩), db1)

/-- The `str(e)` of the `AttributeError` raised when
`validate_group_schedule_conflict` receives a `Subjects` instance: the
queryset argument `week_day=schedule_instance.week_day` is evaluated on the
first iteration of the groups loop, and `Subjects` has no `week_day` field. -/
def attrErrorWeekDay : String :=
  "\x27Subjects\x27 object has no attribute \x27week_day\x27"

/-- The `str(e)` of the `AttributeError` raised when
`validate_audience_schedule_conflict` receives a `Subjects` instance:
`schedule_instance.subject` does not exist on `Subjects`. -/
def attrErrorSubject : String :=
  "\x27Subjects\x27 object has no attribute \x27subject\x27"

/-- The per-subject `try` block of `validate_generated_schedule` (lines
507-513), which passes a `Subjects` instance where the validators expect a
`SubjectSchedule`.  Execution trace of the source on such an instance: the
pk test passes for any persisted row (Django pks start at 1; a falsy pk of
`0`/`None` would return silently); the group validator then iterates
`subject.groups.all()`, raising `AttributeError` on `week_day` at the first
group; with no groups at all the group check falls through and the room
validator raises `AttributeError` on `subject`.  The first raise aborts the
block, so exactly one message per subject is collected. -/
def checkSubjectAsSchedule (row : SubjectRow) : Option String :=
  if row.subject.id = 0 then none
  else if row.groups ≠ [] then some attrErrorWeekDay
  else some attrErrorSubject

/-- `validate_generated_schedule` (schedule_generator.py lines 493-520):
loads the subjects reachable from the given groups and collects one message
per subject whose check block raised, without short-circuiting across
subjects. -/
def validate_generated_schedule (db : DB) (group_ids : List Nat) :
    Bool × List String :=
  let subjects := db.subjects.filter
    (fun row => row.groups.any (fun gid => group_ids.contains gid))
  let conflicts := subjects.filterMap checkSubjectAsSchedule
  if conflicts.isEmpty then
    (true, ["Расписание корректно, конфликтов не обнаружено"])
  else (false, conflicts)

/-! ## Specification-side predicates -/

/-- Subjects drawn from one store: equal primary keys mean the same row. -/
def SubjInj (S : List Subject) : Prop :=
  ∀ s1 ∈ S, ∀ s2 ∈ S, s1.id = s2.id → s1 = s2

/-- Well-formedness of one slot of the allocation matrix, relative to the
subject universe `S`: group keys are unique, every group claim's room is
recorded in the room dict as claimed by that same subject, and every room
claim belongs to the universe. -/
def SlotWF (S : List Subject) (sd : SlotData) : Prop :=
  (sd.group_entries.map Prod.fst).Nodup ∧
  (∀ p ∈ sd.group_entries,
    alistGet sd.audiences p.2.subject.audience.id = some p.2.subject) ∧
  (∀ q ∈ sd.audiences, q.2 ∈ S)

/-- Well-formedness of the whole matrix: every stored key carries week parity
BOTH (the generator's only parity) and satisfies the per-slot invariant. -/
def MatrixWF (S : List Subject) (m : ScheduleMatrix) : Prop :=
  ∀ e ∈ m, e.1.2.2 = EvenOddBoth.BOTH ∧ SlotWF S e.2

/-! ## Concrete fixtures for witnesses and counterexamples -/

/-- A shuffle oracle that leaves the obligation order unchanged. -/
def shuffleId : Nat → List Obligation → List Obligation := fun _ l => l

def aud1 : Audience := ⟨1, "А-101"⟩

def aud2 : Audience := ⟨2, "А-102"⟩

def subj1 : Subject := ⟨1, "Математика", aud1⟩

def subj2 : Subject := ⟨2, "Физика", aud1⟩

def subj3 : Subject := ⟨3, "История", aud2⟩

def dayMon : Day := ⟨1, "Понедельник"⟩

def slot1 : TimeSlot := ⟨1, 1, 480, 570⟩

def slot2 : TimeSlot := ⟨2, 2, 600, 690⟩

def grp1 : StudyGroup := ⟨1, "Г-1", true⟩

def grp2 : StudyGroup := ⟨2, "Г-2", true⟩

def grpInactive : StudyGroup := ⟨3, "Г-3", false⟩

def teach1 : Teacher := ⟨1, "ivanov", "Иван", "Иванов"⟩

/-- A persisted assignment: subject 1 on Monday, slot 1, every week, group 1. -/
def recA : SubjectSchedule := ⟨some 1, subj1, dayMon, slot1, .BOTH, [], [grp1]⟩

/-- A second persisted assignment of the same subject at the same day, slot
and parity, for a different group. -/
def recB : SubjectSchedule := ⟨some 2, subj1, dayMon, slot1, .BOTH, [], [grp2]⟩

/-- An instance that was never saved. -/
def recUnsaved : SubjectSchedule :=
  ⟨none, subj2, dayMon, slot1, .BOTH, [teach1], [grp1]⟩

/-- A persisted assignment carrying two groups. -/
def recTwoGroups : SubjectSchedule :=
  ⟨some 5, subj1, dayMon, slot1, .BOTH, [], [grp1, grp2]⟩

/-- A store with one subject attached to group 1 and no schedule records at
all: nothing can conflict. -/
def dbC1 : DB :=
  { schedules := [], subjects := [⟨subj1, [1]⟩], groups := [grp1],
    days := [dayMon], time_slots := [slot1], pk_seq := 2 }

/-- A store where clearing has something to delete but generation must fail:
no time slots exist. -/
def dbClear : DB :=
  { schedules := [recA], subjects := [⟨subj1, [1]⟩], groups := [grp1],
    days := [dayMon], time_slots := [], pk_seq := 2 }

/-- A store where generation exhausts its budget: two subjects of one
group but a single day-slot. -/
def dbExhaust : DB :=
  { schedules := [], subjects := [⟨subj1, [1]⟩, ⟨subj3, [1]⟩],
    groups := [grp1], days := [dayMon], time_slots := [slot1], pk_seq := 1 }

/-- A store whose only group with id 3 exists but is inactive. -/
def dbInactive : DB :=
  { schedules := [], subjects := [], groups := [grpInactive],
    days := [dayMon], time_slots := [slot1], pk_seq := 1 }

/-- Obligations exercising the streamed-subject case: subject 1 is taught to
groups 1 and 2 (one room, one slot), subject 3 separately to group 1. -/
def c4obs : List Obligation := [(subj1, grp1), (subj1, grp2), (subj3, grp1)]

/-- Two candidate slots on one day. -/
def c4slots : List (Day × TimeSlot) := [(dayMon, slot1), (dayMon, slot2)]

/-! # Theorems -/

/-! ## Association-list lemmas -/

theorem alistGet_alistSet_self {α β : Type} [DecidableEq α]
    (l : List (α × β)) (k : α) (v : β) :
    alistGet (alistSet l k v) k = some v := by
  induction l with
  | nil => simp [alistSet, alistGet]
  | cons p rest ih =>
    by_cases h : p.1 = k
    · simp [alistSet, h, alistGet]
    · simp [alistSet, h, alistGet, ih]

theorem alistGet_alistSet_ne {α β : Type} [DecidableEq α]
    (l : List (α × β)) (k k2 : α) (v : β) (h : k2 ≠ k) :
    alistGet (alistSet l k v) k2 = alistGet l k2 := by
  induction l with
  | nil =>
    simp only [alistSet, alistGet]
    rw [if_neg (fun he : k = k2 => h he.symm)]
  | cons p rest ih =>
    by_cases hp : p.1 = k
    · simp only [alistSet, if_pos hp, alistGet]
      rw [if_neg (fun he : k = k2 => h he.symm),
        if_neg (fun he : p.1 = k2 => h (hp.symm.trans he).symm)]
    · simp only [alistSet, if_neg hp, alistGet, ih]

theorem mem_alistSet {α β : Type} [DecidableEq α]
    (l : List (α × β)) (k : α) (v : β) (p : α × β)
    (h : p ∈ alistSet l k v) : p = (k, v) ∨ p ∈ l := by
  induction l with
  | nil => simpa [alistSet] using h
  | cons q rest ih =>
    by_cases hq : q.1 = k
    · rw [alistSet, if_pos hq] at h
      rcases List.mem_cons.mp h with h | h
      · exact Or.inl h
      · exact Or.inr (List.mem_cons_of_mem q h)
    · rw [alistSet, if_neg hq] at h
      rcases List.mem_cons.mp h with h | h
      · exact Or.inr (h ▸ List.mem_cons_self q rest)
      · rcases ih h with h | h
        · exact Or.inl h
        · exact Or.inr (List.mem_cons_of_mem q h)

theorem alistGet_mem {α β : Type} [DecidableEq α]
    (l : List (α × β)) (k : α) (v : β) (h : alistGet l k = some v) :
    (k, v) ∈ l := by
  induction l with
  | nil => simp [alistGet] at h
  | cons p rest ih =>
    by_cases hp : p.1 = k
    · rw [alistGet, if_pos hp] at h
      have : v = p.2 := by injection h with h2; exact h2.symm
      subst this
      exact hp ▸ List.mem_cons_self p rest
    · rw [alistGet, if_neg hp] at h
      exact List.mem_cons_of_mem p (ih h)

theorem mem_keys_alistSet {α β : Type} [DecidableEq α]
    (l : List (α × β)) (k a : α) (v : β)
    (h : a ∈ (alistSet l k v).map Prod.fst) :
    a = k ∨ a ∈ l.map Prod.fst := by
  rcases List.mem_map.mp h with ⟨p, hp, rfl⟩
  rcases mem_alistSet l k v p hp with rfl | hp2
  · exact Or.inl rfl
  · exact Or.inr (List.mem_map_of_mem Prod.fst hp2)

theorem keys_nodup_alistSet {α β : Type} [DecidableEq α]
    (l : List (α × β)) (k : α) (v : β)
    (h : (l.map Prod.fst).Nodup) :
    ((alistSet l k v).map Prod.fst).Nodup := by
  induction l with
  | nil => simp [alistSet]
  | cons p rest ih =>
    rw [List.map_cons, List.nodup_cons] at h
    by_cases hp : p.1 = k
    · rw [alistSet, if_pos hp, List.map_cons, List.nodup_cons]
      exact ⟨hp ▸ h.1, h.2⟩
    · rw [alistSet, if_neg hp, List.map_cons, List.nodup_cons]
      refine ⟨fun hc => ?_, ih h.2⟩
      rcases mem_keys_alistSet rest k p.1 v hc with h2 | h2
      · exact hp h2
      · exact h.1 h2

/-! ## The placement test -/

theorem canAssign_false_iff (m : ScheduleMatrix) (s : Subject)
    (g : StudyGroup) (d : Day) (t : TimeSlot) (w : EvenOddBoth) :
    (canAssign m s g d t w).1 = false ↔
      ((alistGet (mget m (d.id, t.id, w)).group_entries g.id).isSome ∨
        ∃ ex, alistGet (mget m (d.id, t.id, w)).audiences s.audience.id = some ex ∧
          ex.id ≠ s.id) := by
  simp only [canAssign]
  by_cases h1 : (alistGet (mget m (d.id, t.id, w)).group_entries g.id).isSome
  · simp [h1]
  · simp only [h1, Bool.false_eq_true, if_false, if_neg]
    cases h2 : alistGet (mget m (d.id, t.id, w)).audiences s.audience.id with
    | none => simp [h1]
    | some ex =>
      by_cases h3 : ex.id = s.id
      · simp [h1, h3]
      · simp [h1, h3]

theorem canAssign_true_parts (m : ScheduleMatrix) (s : Subject)
    (g : StudyGroup) (d : Day) (t : TimeSlot) (w : EvenOddBoth)
    (h : (canAssign m s g d t w).1 = true) :
    alistGet (mget m (d.id, t.id, w)).group_entries g.id = none ∧
      ∀ ex, alistGet (mget m (d.id, t.id, w)).audiences s.audience.id = some ex →
        ex.id = s.id := by
  have hne : ¬((canAssign m s g d t w).1 = false) := by simp [h]
  have h2 := (canAssign_false_iff m s g d t w).not.mp hne
  push_neg at h2
  exact ⟨Option.not_isSome_iff_eq_none.mp h2.1, h2.2⟩

/-- C5: for every allocation-matrix state, the placement test
`_can_assign(subject, group, day, slot, week_type)` returns False exactly
when the slot key already has an entry for the group, or the slot key's room
dict has an entry for the subject's room recorded by a different subject; it
returns True in every other case, in particular when the room entry under the
key was recorded by the identical subject (streamed-subject exception). -/
theorem canAssign_verdict (m : ScheduleMatrix) (subject : Subject)
    (group : StudyGroup) (day : Day) (time_slot : TimeSlot)
    (week_type : EvenOddBoth) :
    (canAssign m subject group day time_slot week_type).1 = false ↔
      ((alistGet (mget m (day.id, time_slot.id, week_type)).group_entries
          group.id).isSome ∨
        ∃ ex, alistGet (mget m (day.id, time_slot.id, week_type)).audiences
            subject.audience.id = some ex ∧ ex.id ≠ subject.id) :=
  canAssign_false_iff m subject group day time_slot week_type

/-- C6: the week-parity overlap relation used by all three conflict
validators to select colliding assignments (the `weekTypeFilter` shared by
`groupConflictPred`, `audienceConflictPred` and `teacherConflictPred`):
BOTH overlaps EVEN, ODD and BOTH; EVEN overlaps only EVEN and BOTH; ODD
overlaps only ODD and BOTH; EVEN and ODD never overlap each other. -/
theorem weekTypeFilter_overlap_table :
    (∀ b, weekTypeFilter EvenOddBoth.BOTH b = true) ∧
    (∀ b, weekTypeFilter EvenOddBoth.EVEN b =
      (b = EvenOddBoth.EVEN || b = EvenOddBoth.BOTH)) ∧
    (∀ b, weekTypeFilter EvenOddBoth.ODD b =
      (b = EvenOddBoth.ODD || b = EvenOddBoth.BOTH)) ∧
    weekTypeFilter EvenOddBoth.EVEN EvenOddBoth.ODD = false ∧
    weekTypeFilter EvenOddBoth.ODD EvenOddBoth.EVEN = false := by
  refine ⟨?_, ?_, ?_, rfl, rfl⟩ <;> intro b <;> cases b <;> rfl

/-- C8: an assignment instance with no persisted identity (`pk` not set) is
reported conflict-free by each of the three validators, whatever the
persisted store contains. -/
theorem validators_skip_unsaved (db : List SubjectSchedule)
    (inst : SubjectSchedule) (h : inst.pk = none) :
    validate_group_schedule_conflict db inst = .ok () ∧
    validate_audience_schedule_conflict db inst = .ok () ∧
    validate_teacher_schedule_conflict db inst = .ok () := by
  unfold validate_group_schedule_conflict validate_audience_schedule_conflict
    validate_teacher_schedule_conflict
  rw [h]
  exact ⟨rfl, rfl, rfl⟩

/-- Witness for C8: a concrete unsaved instance validates conflict-free
against a store holding a clashing persisted record. -/
theorem validators_skip_unsaved_witness :
    validate_group_schedule_conflict [recA] recUnsaved = .ok () ∧
    validate_audience_schedule_conflict [recA] recUnsaved = .ok () ∧
    validate_teacher_schedule_conflict [recA] recUnsaved = .ok () :=
  validators_skip_unsaved [recA] recUnsaved rfl

/-- C1 (code bug): `validate_generated_schedule` passes `Subjects` instances
to validators that expect `SubjectSchedule` instances, so on a store with one
subject attached to the requested group and no schedule records at all — no
conflicts exist — it returns `is_valid = False` with an `AttributeError`
string instead of `True` with the single informational message (the repo's
own test `test_schedule_validation` asserts the latter). -/
theorem validate_generated_schedule_bug :
    validate_generated_schedule dbC1 [1] = (false, [attrErrorWeekDay]) := rfl

/-! ## The room-conflict validator -/

theorem audienceConflictPred_iff (a b : SubjectSchedule) :
    audienceConflictPred a b = true ↔
      (b.pk ≠ a.pk ∧ b.week_day.id = a.week_day.id ∧
        b.time_slot.id = a.time_slot.id ∧
        weekTypeFilter a.week_type b.week_type = true ∧
        b.subject.audience.id = a.subject.audience.id) := by
  simp only [audienceConflictPred, Bool.and_eq_true, decide_eq_true_eq,
    Bool.not_eq_true', decide_eq_false_iff_not]
  tauto

/-- C2 (corrected): `validate_audience_schedule_conflict` raises a room
conflict for a persisted assignment exactly when some other persisted record
(different pk) occupies the same day and time slot with overlapping week
parity and the same room — with no regard to whether the colliding record is
backed by the identical subject.  The streamed case is conflict-free only
when it is represented as a single record (excluded by its own pk). -/
theorem audience_conflict_raises_iff (db : List SubjectSchedule)
    (a : SubjectSchedule) (h : a.pk ≠ none) :
    exceptOk (validate_audience_schedule_conflict db a) = false ↔
      ∃ b ∈ db, b.pk ≠ a.pk ∧ b.week_day.id = a.week_day.id ∧
        b.time_slot.id = a.time_slot.id ∧
        weekTypeFilter a.week_type b.week_type = true ∧
        b.subject.audience.id = a.subject.audience.id := by
  obtain ⟨k, hk⟩ := Option.ne_none_iff_exists'.mp h
  have key : exceptOk (validate_audience_schedule_conflict db a) = false ↔
      ∃ b ∈ db, audienceConflictPred a b = true := by
    unfold validate_audience_schedule_conflict
    rw [hk]
    cases hf : db.filter (audienceConflictPred a) with
    | nil =>
      refine iff_of_false (by simp [exceptOk]) ?_
      rintro ⟨b, hb, hp⟩
      exact (List.filter_eq_nil_iff.mp hf b hb) hp
    | cons c rest =>
      refine iff_of_true rfl ?_
      have hc : c ∈ db.filter (audienceConflictPred a) := by
        rw [hf]; exact List.mem_cons_self c rest
      have h2 := List.mem_filter.mp hc
      exact ⟨c, h2.1, h2.2⟩
  refine key.trans ?_
  constructor
  · rintro ⟨b, hb, hp⟩
    exact ⟨b, hb, (audienceConflictPred_iff a b).mp hp⟩
  · rintro ⟨b, hb, hp⟩
    exact ⟨b, hb, (audienceConflictPred_iff a b).mpr hp⟩

/-- Witness for C2's corrected statement: the iff applied to the concrete
two-record store detects the conflict. -/
theorem audience_conflict_raises_iff_witness :
    ∃ b ∈ [recA, recB], b.pk ≠ recA.pk ∧ b.week_day.id = recA.week_day.id ∧
      b.time_slot.id = recA.time_slot.id ∧
      weekTypeFilter recA.week_type b.week_type = true ∧
      b.subject.audience.id = recA.subject.audience.id :=
  (audience_conflict_raises_iff [recA, recB] recA (by decide)).mp rfl

/-- Counterexample to C2 as stated: two persisted assignments of the same
subject at the same day, slot and parity (different groups) — the validator
raises, although no colliding record with a *different* subject exists. -/
theorem audience_same_subject_counterexample :
    exceptOk (validate_audience_schedule_conflict [recA, recB] recA) = false ∧
    ¬ ∃ b ∈ [recA, recB], b.pk ≠ recA.pk ∧
      b.week_day.id = recA.week_day.id ∧
      b.time_slot.id = recA.time_slot.id ∧
      weekTypeFilter recA.week_type b.week_type = true ∧
      b.subject.audience.id = recA.subject.audience.id ∧
      b.subject.id ≠ recA.subject.id :=
  ⟨rfl, by decide⟩

/-! ## Clearing semantics -/

/-- C7: when clearing is requested, a record of the subject carrying the
target group is deleted exactly when the target group was its only group;
with two or more groups it survives with only the target group's membership
removed and every other group intact; and a record not matching the subject
or not carrying the group is untouched.  (The M2M rows of `groups` carry no
duplicate group ids, hence the Nodup hypothesis.) -/
theorem clearOne_semantics (g : StudyGroup) (s : Subject) (r : SubjectSchedule)
    (hnd : (r.groups.map (fun x => x.id)).Nodup) :
    (clearOne g s r = none ↔
      (r.subject.id = s.id ∧ r.groups ≠ [] ∧ ∀ x ∈ r.groups, x.id = g.id)) ∧
    (r.subject.id = s.id → (∃ x ∈ r.groups, x.id = g.id) →
      2 ≤ r.groups.length →
      clearOne g s r =
        some { r with groups := r.groups.filter (fun y => !(y.id = g.id)) }) ∧
    (¬(r.subject.id = s.id ∧ ∃ x ∈ r.groups, x.id = g.id) →
      clearOne g s r = some r) := by
  unfold clearOne
  by_cases hm : (r.subject.id = s.id && r.groups.any (fun x => x.id = g.id)) = true
  · have hm2 := hm
    simp only [Bool.and_eq_true, decide_eq_true_eq, List.any_eq_true] at hm2
    obtain ⟨hsub, x, hx, hxid⟩ := hm2
    rw [if_pos hm]
    by_cases hl : r.groups.length = 1
    · rw [if_pos hl]
      obtain ⟨a, ha⟩ := List.length_eq_one.mp hl
      refine ⟨?_, ?_, ?_⟩
      · refine iff_of_true rfl ⟨hsub, ?_, ?_⟩
        · rw [ha]; exact List.cons_ne_nil a []
        · intro y hy
          rw [ha] at hy hx
          rcases List.mem_singleton.mp hy with rfl
          rcases List.mem_singleton.mp hx with rfl
          exact hxid
      · intro _ _ h2; omega
      · intro hc; exact absurd ⟨hsub, x, hx, hxid⟩ hc
    · rw [if_neg hl]
      refine ⟨?_, ?_, ?_⟩
      · refine iff_of_false (by simp) ?_
        rintro ⟨_, hne, hall⟩
        rcases hg : r.groups with _ | ⟨y, tail⟩
        · exact hne hg
        · rcases tail with _ | ⟨z, tail2⟩
          · exact hl (by rw [hg]; rfl)
          · rw [hg, List.map_cons, List.map_cons, List.nodup_cons] at hnd
            have hy := hall y (by rw [hg]; exact List.mem_cons_self y _)
            have hz := hall z (by
              rw [hg]; exact List.mem_cons_of_mem y (List.mem_cons_self z _))
            exact hnd.1 (by rw [hy, hz]; exact List.mem_cons_self g.id _)
      · intro _ _ _; rfl
      · intro hc; exact absurd ⟨hsub, x, hx, hxid⟩ hc
  · rw [if_neg hm]
    simp only [Bool.and_eq_true, decide_eq_true_eq, List.any_eq_true] at hm
    push_neg at hm
    refine ⟨?_, ?_, ?_⟩
    · refine iff_of_false (by simp) ?_
      rintro ⟨hsub, hne, hall⟩
      rcases hg : r.groups with _ | ⟨y, tail⟩
      · exact hne hg
      · exact hm hsub y (by rw [hg]; exact List.mem_cons_self y _)
          (by simpa using hall y (by rw [hg]; exact List.mem_cons_self y _))
    · rintro hsub ⟨x, hx, hxid⟩ _
      exact absurd (by simpa using hxid) (hm hsub x hx)
    · intro _; rfl

/-- Witness for C7: a two-group record survives clearing as the claim
prescribes. -/
theorem clearOne_semantics_witness :
    (clearOne grp1 subj1 recTwoGroups = none ↔
      (recTwoGroups.subject.id = subj1.id ∧ recTwoGroups.groups ≠ [] ∧
        ∀ x ∈ recTwoGroups.groups, x.id = grp1.id)) ∧
    (recTwoGroups.subject.id = subj1.id →
      (∃ x ∈ recTwoGroups.groups, x.id = grp1.id) →
      2 ≤ recTwoGroups.groups.length →
      clearOne grp1 subj1 recTwoGroups =
        some { recTwoGroups with
          groups := recTwoGroups.groups.filter (fun y => !(y.id = grp1.id)) }) ∧
    (¬(recTwoGroups.subject.id = subj1.id ∧
        ∃ x ∈ recTwoGroups.groups, x.id = grp1.id) →
      clearOne grp1 subj1 recTwoGroups = some recTwoGroups) :=
  clearOne_semantics grp1 subj1 recTwoGroups (by decide)

/-! ## Entry-point behaviour -/

/-- C9: when no active group carries the requested id — whether the id is
unknown or the group exists but is inactive — `generate_schedule_for_group`
returns failure with the single "group not found" message and zeroed
statistics, and leaves the store untouched (no clearing, no search, no
persistence). -/
theorem inactive_group_treated_as_missing (db : DB)
    (shuffles : Nat → List Obligation → List Obligation)
    (gid : Nat) (sids : List Nat) (c p : Bool) (tr : Option String)
    (cs ce sd ed : Option Nat)
    (h : ∀ g ∈ db.groups, g.id = gid → g.is_active = false) :
    generate_schedule_for_group db shuffles gid sids c p tr cs ce sd ed =
      ((false, ["Группа не найдена"], ⟨0, 0, 0⟩), db) := by
  have hfil : db.groups.filter (fun g => g.id = gid && g.is_active) = [] := by
    refine List.filter_eq_nil_iff.mpr ?_
    intro g hg
    simp only [Bool.and_eq_true, decide_eq_true_eq, not_and]
    intro hid
    simp [h g hg hid]
  unfold generate_schedule_for_group
  rw [hfil]

/-- Witness for C9: the concrete store whose only group with the requested id
is inactive. -/
theorem inactive_group_treated_as_missing_witness :
    generate_schedule_for_group dbInactive shuffleId 3 [] false true
        none none none none none =
      ((false, ["Группа не найдена"], ⟨0, 0, 0⟩), dbInactive) :=
  inactive_group_treated_as_missing dbInactive shuffleId 3 [] false true
    none none none none none (by decide)

/-- C10: the custom time window is applied only when both custom bounds are
given; with exactly one bound present the resolved window is the same as
with no custom bounds at all (the named preset governs), and when no valid
preset name is given either, the slot pool is not filtered by time. -/
theorem custom_time_window_requires_both_bounds (tr : Option String)
    (cs ce : Option Nat) (slots : List TimeSlot)
    (h : cs = none ∨ ce = none) :
    getTimeRange tr cs ce = getTimeRange tr none none ∧
    (lookupTimeRange tr = none →
      filterSlotsByTime slots (getTimeRange tr cs ce) = slots) := by
  have h1 : getTimeRange tr cs ce = getTimeRange tr none none := by
    rcases h with h | h <;> subst h
    · cases ce <;> rfl
    · cases cs <;> rfl
  refine ⟨h1, fun hl => ?_⟩
  rw [h1]
  unfold getTimeRange
  rw [hl]
  rfl

/-- Witness for C10: a lone custom start bound together with a preset name
resolves as if no custom bound were given. -/
theorem custom_time_window_requires_both_bounds_witness :
    getTimeRange (some "morning") (some 300) none =
        getTimeRange (some "morning") none none ∧
    (lookupTimeRange (some "morning") = none →
      filterSlotsByTime [slot1] (getTimeRange (some "morning") (some 300) none) =
        [slot1]) :=
  custom_time_window_requires_both_bounds (some "morning") (some 300) none
    [slot1] (Or.inr rfl)

/-- C3 (corrected): provided clearing of the existing schedule was not
requested, a generation run that fails — in particular one that exhausts its
attempt budget — makes no persistent change: the store after the call equals
the store before it.  (With clearing requested, the clearing pre-step is a
persistent change that survives a failed run, as the counterexample shows.) -/
theorem failure_preserves_store_without_clearing (db : DB)
    (shuffles : Nat → List Obligation → List Obligation)
    (gid : Nat) (sids : List Nat) (p : Bool) (tr : Option String)
    (cs ce sd ed : Option Nat)
    (h : (generate_schedule_for_group db shuffles gid sids false p
        tr cs ce sd ed).1.1 = false) :
    (generate_schedule_for_group db shuffles gid sids false p
      tr cs ce sd ed).2 = db := by
  have haux : ∀ r, generate_schedule_for_group db shuffles gid sids false p
      tr cs ce sd ed = r → r.1.1 = false → r.2 = db := by
    intro r hr hf
    unfold generate_schedule_for_group at hr
    split at hr
    · rw [← hr]
    · split at hr
      · exact absurd ‹false = true› (by simp)
      · simp only [] at hr
        split at hr
        · rw [← hr]
        · split at hr
          · rw [← hr]
          · split at hr
            · rw [← hr] at hf
              simp at hf
            · rw [← hr]
  exact haux _ rfl h

/-- Witness for C3's corrected statement: a budget-exhausting run (two
subjects of one group, a single candidate slot, no clearing) fails and
leaves the store equal to its prior state. -/
theorem failure_preserves_store_without_clearing_witness :
    (generate_schedule_for_group dbExhaust shuffleId 1 [1, 3] false true
        none none none none none).1.1 = false ∧
    (generate_schedule_for_group dbExhaust shuffleId 1 [1, 3] false true
        none none none none none).2 = dbExhaust :=
  ⟨rfl, failure_preserves_store_without_clearing dbExhaust shuffleId 1 [1, 3]
    true none none none none none rfl⟩

/-- Counterexample to C3 as stated: with clearing requested, a failing run
(here: no time slots exist, so the generator fails immediately after the
clearing pre-step) leaves the store changed — the cleared record is gone. -/
theorem failure_with_clearing_changes_store :
    (generate_schedule_for_group dbClear shuffleId 1 [1] true true
        none none none none none).1.1 = false ∧
    (generate_schedule_for_group dbClear shuffleId 1 [1] true true
        none none none none none).2 ≠ dbClear :=
  ⟨rfl, by decide⟩

/-! ## The no-double-booking invariant of the generator -/

theorem mget_WF (S : List Subject) (m : ScheduleMatrix) (k : SlotKey)
    (hwf : MatrixWF S m) : SlotWF S (mget m k) := by
  unfold mget
  cases hg : alistGet m k with
  | none =>
    refine ⟨List.nodup_nil, ?_, ?_⟩ <;> intro p hp <;> simp at hp
  | some sd =>
    exact (hwf (k, sd) (alistGet_mem m k sd hg)).2

theorem assign_preserves_WF (S : List Subject) (m : ScheduleMatrix)
    (s : Subject) (g : StudyGroup) (d : Day) (t : TimeSlot)
    (hinj : SubjInj S) (hS : s ∈ S) (hwf : MatrixWF S m)
    (hcan : (canAssign m s g d t EvenOddBoth.BOTH).1 = true) :
    MatrixWF S (assign m s g d t EvenOddBoth.BOTH) := by
  obtain ⟨hge, haud⟩ := canAssign_true_parts m s g d t EvenOddBoth.BOTH hcan
  obtain ⟨hnd, hmap, hvals⟩ :=
    mget_WF S m (d.id, t.id, EvenOddBoth.BOTH) hwf
  intro e he
  unfold assign at he
  rcases mem_alistSet _ _ _ e he with rfl | hmem
  · refine ⟨rfl, ?_, ?_, ?_⟩
    · exact keys_nodup_alistSet _ _ _ hnd
    · intro p hp
      rcases mem_alistSet _ _ _ p hp with rfl | hpold
      · exact alistGet_alistSet_self _ _ _
      · by_cases ha : p.2.subject.audience.id = s.audience.id
        · have h1 := hmap p hpold
          rw [ha] at h1
          have h2 : p.2.subject.id = s.id := haud p.2.subject h1
          have h3 : p.2.subject ∈ S := hvals _ (alistGet_mem _ _ _ h1)
          have h4 : p.2.subject = s := hinj _ h3 _ hS h2
          rw [ha, alistGet_alistSet_self, h4]
        · rw [alistGet_alistSet_ne _ _ _ _ ha]
          exact hmap p hpold
    · intro q hq
      rcases mem_alistSet _ _ _ q hq with rfl | hqold
      · exact hS
      · exact hvals q hqold
  · exact hwf e hmem

theorem scanSlots_WF (S : List Subject) (s : Subject) (g : StudyGroup)
    (hinj : SubjInj S) (hS : s ∈ S) :
    ∀ (slots : List (Day × TimeSlot)) (m : ScheduleMatrix) (log : List String)
      (m2 : ScheduleMatrix) (log2 : List String), MatrixWF S m →
      scanSlots s g m log slots = (some m2, log2) → MatrixWF S m2 := by
  intro slots
  induction slots with
  | nil =>
    intro m log m2 log2 _ hres
    simp [scanSlots] at hres
  | cons p rest ih =>
    intro m log m2 log2 hwf hres
    rcases p with ⟨d, t⟩
    rw [scanSlots] at hres
    by_cases hc : (canAssign m s g d t EvenOddBoth.BOTH).1 = true
    · rw [if_pos hc] at hres
      have hm2 : assign m s g d t EvenOddBoth.BOTH = m2 := by
        injection hres with h1 _
        injection h1
      rw [← hm2]
      exact assign_preserves_WF S m s g d t hinj hS hwf hc
    · rw [if_neg hc] at hres
      exact ih m _ m2 log2 hwf hres

theorem tryDays_WF (S : List Subject) (s : Subject) (g : StudyGroup)
    (days : List Day) (sbd : Nat → List (Day × TimeSlot))
    (hinj : SubjInj S) (hS : s ∈ S) :
    ∀ (fuel : Nat) (m : ScheduleMatrix) (log : List String) (di : Nat)
      (m2 : ScheduleMatrix) (di2 : Nat) (log2 : List String), MatrixWF S m →
      tryDays s g days sbd m log di fuel = (some (m2, di2), log2) →
      MatrixWF S m2 := by
  intro fuel
  induction fuel with
  | zero =>
    intro m log di m2 di2 log2 _ hres
    simp [tryDays] at hres
  | succ fuel ih =>
    intro m log di m2 di2 log2 hwf hres
    rw [tryDays] at hres
    split at hres
    · simp at hres
    · next cd _ =>
      split at hres
      · next mm log4 heq =>
        have : mm = m2 := by
          injection hres with h1 _
          injection h1 with h2
          injection h2 with h3 _
        rw [← this]
        exact scanSlots_WF S s g hinj hS (sbd cd.id) m log mm log4 hwf heq
      · next log4 heq =>
        exact ih m log4 (di + 1) m2 di2 log2 hwf hres

theorem assignLoop_WF (S : List Subject) (days : List Day)
    (sbd : Nat → List (Day × TimeSlot)) (hinj : SubjInj S) :
    ∀ (obs : List Obligation) (m : ScheduleMatrix) (log : List String)
      (di : Nat) (m2 : ScheduleMatrix) (log2 : List String), MatrixWF S m →
      (∀ ob ∈ obs, ob.1 ∈ S) →
      assignLoop days sbd obs m log di = (true, m2, log2) → MatrixWF S m2 := by
  intro obs
  induction obs with
  | nil =>
    intro m log di m2 log2 hwf _ hres
    rw [assignLoop] at hres
    have : m = m2 := by
      injection hres with _ h1
      injection h1
    rw [← this]
    exact hwf
  | cons ob rest ih =>
    intro m log di m2 log2 hwf hobs hres
    rw [assignLoop] at hres
    cases ht : tryDays ob.1 ob.2 days sbd m log di days.length with
    | mk ro log3 =>
      rw [ht] at hres
      cases ro with
      | some pr =>
        have hwf2 : MatrixWF S pr.1 := by
          refine tryDays_WF S ob.1 ob.2 days sbd hinj
            (hobs ob (List.mem_cons_self ob rest)) days.length m log di
            pr.1 pr.2 log3 hwf ?_
          rw [ht]
        exact ih pr.1 log3 (pr.2 + 1) m2 log2 hwf2
          (fun o ho => hobs o (List.mem_cons_of_mem ob ho)) hres
      | none => simp at hres

/-- C4: after every successful run of the placement search
(`_try_assign_all` returning True, every obligation placed), every key of the
resulting allocation matrix carries week parity BOTH — so any two resulting
assignments sharing a day and time slot share a key — and within a key any
two group claims for the same group coincide (distinct resulting assignments
therefore have disjoint group sets) and any two group claims whose subjects
share a room are claims of the identical subject. -/
theorem generated_matrix_no_double_booking (assignments : List Obligation)
    (slots : List (Day × TimeSlot)) (log : List String)
    (hinj : SubjInj (assignments.map Prod.fst))
    (hsucc : (tryAssignAll assignments slots log).1 = true) :
    ∀ e ∈ (tryAssignAll assignments slots log).2.1,
      e.1.2.2 = EvenOddBoth.BOTH ∧
      ∀ p1 ∈ e.2.group_entries, ∀ p2 ∈ e.2.group_entries,
        (p1.1 = p2.1 → p1 = p2) ∧
        (p1.2.subject.audience.id = p2.2.subject.audience.id →
          p1.2.subject = p2.2.subject) := by
  intro e he
  set S := assignments.map Prod.fst with hs
  have hobs : ∀ ob ∈ assignments, ob.1 ∈ S := by
    intro ob hob
    exact List.mem_map_of_mem Prod.fst hob
  have hwf : MatrixWF S (tryAssignAll assignments slots log).2.1 := by
    have hres : tryAssignAll assignments slots log =
        (true, (tryAssignAll assignments slots log).2.1,
          (tryAssignAll assignments slots log).2.2) := by
      rw [← hsucc]
    unfold tryAssignAll at hres ⊢
    exact assignLoop_WF S (distinctDays slots)
      (fun did => slots.filter (fun p => p.1.id = did)) hinj assignments
      [] log 0 _ _ (by intro x hx; simp at hx) hobs hres
  obtain ⟨hboth, hnd, hmap, _⟩ := hwf e he
  refine ⟨hboth, ?_⟩
  intro p1 hp1 p2 hp2
  constructor
  · intro hkey
    exact List.inj_on_of_nodup_map hnd hp1 hp2 hkey
  · intro haud
    have h1 := hmap p1 hp1
    have h2 := hmap p2 hp2
    rw [haud, h2] at h1
    injection h1 with hv
    exact hv.symm

/-- Witness for C4: a successful concrete run — subject 1 streamed to two
groups in one room and slot, subject 3 in a second slot — satisfies the
invariant. -/
theorem generated_matrix_no_double_booking_witness :
    (tryAssignAll c4obs c4slots []).1 = true ∧
    ∀ e ∈ (tryAssignAll c4obs c4slots []).2.1,
      e.1.2.2 = EvenOddBoth.BOTH ∧
      ∀ p1 ∈ e.2.group_entries, ∀ p2 ∈ e.2.group_entries,
        (p1.1 = p2.1 → p1 = p2) ∧
        (p1.2.subject.audience.id = p2.2.subject.audience.id →
          p1.2.subject = p2.2.subject) :=
  ⟨rfl, generated_matrix_no_double_booking c4obs c4slots []
    (by unfold SubjInj; decide) rfl⟩

end Coursework
